import Mathlib

/-!
Shallow embedding of `src/icebreaker-bot/app.py` (Icebreaker Bot, Gradio UI).

The application wires external library calls (profile scraping, text
splitting, vector-store construction, embedding verification, LLM queries)
around a session dictionary `active_indices`.  The external calls are
modelled as an abstract record of oracles (`Stages`): each oracle returns
`Except String α`, where `Except.error e` models a raised Python exception
with message `e`.  Python truthiness checks (`if not x:`) on the opaque
values returned by the oracles are modelled by explicit truthiness oracles.

Both functions are embedded as total functions that additionally return
the resulting session dictionary (Python mutates the module-level dict
`active_indices`) and a trace of the external calls they performed, in
order, each recording the arguments it was given.
-/

namespace Icebreaker

/-- One external library call performed by the app, with its arguments. -/
inductive Event (P N I : Type) where
  | callChangeModel (model : String)
  | callExtract (url : String) (apiKey : Option String) (mock : Bool)
  | callSplit (profile : P)
  | callCreateVDB (nodes : N)
  | callVerify (index : I)
  | callGenFacts (index : I)
  | callAnswer (index : I) (query : String)
deriving DecidableEq

/-- Constructor tag of an event: two events have the same kind exactly when
they are calls to the same external function. -/
def Event.kind {P N I : Type} : Event P N I → Nat
  | .callChangeModel _ => 0
  | .callExtract _ _ _ => 1
  | .callSplit _ => 2
  | .callCreateVDB _ => 3
  | .callVerify _ => 4
  | .callGenFacts _ => 5
  | .callAnswer _ _ => 6

/-- The external functions imported by `app.py`, as oracles.  `P`, `N`, `I`,
`F`, `R` are the (opaque) Python types of profile data, node lists, vector
indices, generated facts and query responses.  `Except.error e` models a
raised exception with message `e`; the `*_truthy` fields model Python
truthiness of the corresponding values; `llm_model_id` models the constant
`config.LLM_MODEL_ID`. -/
structure Stages (P N I F R : Type) where
  llm_model_id : String
  change_llm_model : String → Except String Unit
  extract_linkedin_profile : String → Option String → Bool → Except String P
  profile_truthy : P → Bool
  split_profile_data : P → Except String N
  nodes_truthy : N → Bool
  create_vector_database : N → Except String I
  index_truthy : I → Bool
  verify_embeddings : I → Except String Bool
  generate_initial_facts : I → Except String F
  facts_to_string : F → String
  answer_user_query : I → String → Except String R
  response_response : R → String

/-- Python dict lookup `d[k]` / `k in d`, on the association-list model of
`active_indices` (first matching key, as dicts have unique keys). -/
def dictGet? {I : Type} (m : List (String × I)) (k : String) : Option I :=
  (m.find? (fun p => p.1 = k)).map (fun p => p.2)

/-- Python dict assignment `d[k] = v`: overwrite if the key is present,
append a new entry otherwise. -/
def dictInsert {I : Type} (m : List (String × I)) (k : String) (v : I) :
    List (String × I) :=
  match dictGet? m k with
  | some _ => m.map (fun p => if p.1 = k then (k, v) else p)
  | none => m ++ [(k, v)]

/-- `f"Error: {str(e)}"` -/
def errMsg (e : String) : String := "Error: " ++ e

def failProfileMsg : String :=
  "Failed to retrieve profile data. Please check the URL or API key."

def failNodesMsg : String := "Failed to process profile data into nodes."

def failVdbMsg : String := "Failed to create vector database."

def successMsg (facts : String) : String :=
  "Profile processed successfully!\n\nHere are 3 interesting facts about this person:\n\n"
    ++ facts

def noProfileMsg : String :=
  "No profile loaded. Please process a LinkedIn profile first."

def sessionExpiredMsg : String :=
  "Session expired. Please process the LinkedIn profile again."

def defaultLinkedinUrl : String := "https://www.linkedin.com/in/leonkatsnelson/"

/-- `if use_mock and not linkedin_url: linkedin_url = <default>` -/
def effUrl (use_mock : Bool) (linkedin_url : String) : String :=
  if use_mock ∧ linkedin_url = "" then defaultLinkedinUrl else linkedin_url

/-- `api_key if not use_mock else None` -/
def effKey (use_mock : Bool) (api_key : String) : Option String :=
  if use_mock then none else some api_key

/-- Python `str.strip()`: remove leading and trailing whitespace. -/
def pyStrip (s : String) : String :=
  String.mk (((s.data.dropWhile Char.isWhitespace).reverse.dropWhile
    Char.isWhitespace).reverse)

/-- The trace event of the `extract_linkedin_profile` call as `app.py`
performs it. -/
def extractEv {P N I : Type} (use_mock : Bool) (linkedin_url api_key : String) :
    Event P N I :=
  Event.callExtract (effUrl use_mock linkedin_url) (effKey use_mock api_key) use_mock

/-- Result of one invocation of `process_profile`: the two returned values
(message text and optional session id), the session dictionary after the
call, and the trace of external calls made. -/
structure ProcOut (P N I : Type) where
  message : String
  session : Option String
  indices : List (String × I)
  trace : List (Event P N I)
deriving DecidableEq

/-- Body of `process_profile` after the LLM-model step (lines 46-90 of
`app.py`): extraction, splitting, indexing, verification, fact generation,
session storage, with every raised exception caught and returned as
`f"Error: {e}"` with session id `None`.  `fresh` models the generated
`str(uuid.uuid4())`; `st` is `active_indices` before the call. -/
def process_profile_core {P N I F R : Type} (S : Stages P N I F R)
    (fresh : String) (st : List (String × I))
    (linkedin_url api_key : String) (use_mock : Bool) : ProcOut P N I :=
  match S.extract_linkedin_profile (effUrl use_mock linkedin_url)
      (effKey use_mock api_key) use_mock with
  | .error e => ⟨errMsg e, none, st, [extractEv use_mock linkedin_url api_key]⟩
  | .ok profile_data =>
    if S.profile_truthy profile_data then
      match S.split_profile_data profile_data with
      | .error e => ⟨errMsg e, none, st,
          [extractEv use_mock linkedin_url api_key, Event.callSplit profile_data]⟩
      | .ok nodes =>
        if S.nodes_truthy nodes then
          match S.create_vector_database nodes with
          | .error e => ⟨errMsg e, none, st,
              [extractEv use_mock linkedin_url api_key, Event.callSplit profile_data,
               Event.callCreateVDB nodes]⟩
          | .ok index =>
            if S.index_truthy index then
              match S.verify_embeddings index with
              | .error e => ⟨errMsg e, none, st,
                  [extractEv use_mock linkedin_url api_key, Event.callSplit profile_data,
                   Event.callCreateVDB nodes, Event.callVerify index]⟩
              | .ok _verified =>
                match S.generate_initial_facts index with
                | .error e => ⟨errMsg e, none, st,
                    [extractEv use_mock linkedin_url api_key, Event.callSplit profile_data,
                     Event.callCreateVDB nodes, Event.callVerify index,
                     Event.callGenFacts index]⟩
                | .ok facts =>
                  ⟨successMsg (S.facts_to_string facts), some fresh,
                   dictInsert st fresh index,
                   [extractEv use_mock linkedin_url api_key, Event.callSplit profile_data,
                    Event.callCreateVDB nodes, Event.callVerify index,
                    Event.callGenFacts index]⟩
            else
              ⟨failVdbMsg, none, st,
               [extractEv use_mock linkedin_url api_key, Event.callSplit profile_data,
                Event.callCreateVDB nodes]⟩
        else
          ⟨failNodesMsg, none, st,
           [extractEv use_mock linkedin_url api_key, Event.callSplit profile_data]⟩
    else
      ⟨failProfileMsg, none, st, [extractEv use_mock linkedin_url api_key]⟩

/-- Prepend the `change_llm_model` call event to a result's trace. -/
def withModelEv {P N I : Type} (model : String) (r : ProcOut P N I) : ProcOut P N I :=
  ⟨r.message, r.session, r.indices, Event.callChangeModel model :: r.trace⟩

/-- `process_profile(linkedin_url, api_key, use_mock, selected_model)`
(lines 29-90 of `app.py`).  First changes the LLM model when
`selected_model != config.LLM_MODEL_ID` (an exception there is caught by
the same blanket handler), then runs the pipeline body. -/
def process_profile {P N I F R : Type} (S : Stages P N I F R)
    (fresh : String) (st : List (String × I))
    (linkedin_url api_key : String) (use_mock : Bool) (selected_model : String) :
    ProcOut P N I :=
  if selected_model = S.llm_model_id then
    process_profile_core S fresh st linkedin_url api_key use_mock
  else
    match S.change_llm_model selected_model with
    | .error e => ⟨errMsg e, none, st, [Event.callChangeModel selected_model]⟩
    | .ok _ =>
      withModelEv selected_model
        (process_profile_core S fresh st linkedin_url api_key use_mock)

/-- Result of one invocation of `chat_with_profile`: the returned chat
history, the session dictionary after the call (the function never writes
to it), and the trace of external calls made. -/
structure ChatOut (P N I : Type) where
  history : List (String × String)
  indices : List (String × I)
  trace : List (Event P N I)
deriving DecidableEq

/-- `chat_with_profile(session_id, user_query, chat_history)` (lines 92-124
of `app.py`).  Guard order as in the source: falsy session id, then missing
key, then blank query; the query is answered via `answer_user_query` on the
stored index, with any exception caught and appended as `f"Error: {e}"`. -/
def chat_with_profile {P N I F R : Type} (S : Stages P N I F R)
    (st : List (String × I)) (session_id user_query : String)
    (chat_history : List (String × String)) : ChatOut P N I :=
  if session_id = "" then
    ⟨chat_history ++ [(user_query, noProfileMsg)], st, []⟩
  else
    match dictGet? st session_id with
    | none => ⟨chat_history ++ [(user_query, sessionExpiredMsg)], st, []⟩
    | some index =>
      if pyStrip user_query = "" then
        ⟨chat_history, st, []⟩
      else
        match S.answer_user_query index user_query with
        | .error e => ⟨chat_history ++ [(user_query, errMsg e)], st,
            [Event.callAnswer index user_query]⟩
        | .ok r => ⟨chat_history ++ [(user_query, S.response_response r)], st,
            [Event.callAnswer index user_query]⟩

/-! ### Exhaustive case analysis of the pipeline body -/

/-- Every invocation of `process_profile_core` takes exactly one of nine
exit paths: an exception or falsy result at one of the five stages, or the
success path that stores the session.  Each case records the oracle answers
along the path and the exact result. -/
theorem process_profile_core_spec {P N I F R : Type} (S : Stages P N I F R)
    (fresh : String) (st : List (String × I))
    (url key : String) (mock : Bool) :
    (∃ e, S.extract_linkedin_profile (effUrl mock url) (effKey mock key) mock
            = .error e ∧
          process_profile_core S fresh st url key mock
            = ⟨errMsg e, none, st, [extractEv mock url key]⟩) ∨
    (∃ p, S.extract_linkedin_profile (effUrl mock url) (effKey mock key) mock
            = .ok p ∧
          S.profile_truthy p = false ∧
          process_profile_core S fresh st url key mock
            = ⟨failProfileMsg, none, st, [extractEv mock url key]⟩) ∨
    (∃ p e, S.extract_linkedin_profile (effUrl mock url) (effKey mock key) mock
            = .ok p ∧
          S.profile_truthy p = true ∧
          S.split_profile_data p = .error e ∧
          process_profile_core S fresh st url key mock
            = ⟨errMsg e, none, st,
               [extractEv mock url key, Event.callSplit p]⟩) ∨
    (∃ p n, S.extract_linkedin_profile (effUrl mock url) (effKey mock key) mock
            = .ok p ∧
          S.profile_truthy p = true ∧
          S.split_profile_data p = .ok n ∧
          S.nodes_truthy n = false ∧
          process_profile_core S fresh st url key mock
            = ⟨failNodesMsg, none, st,
               [extractEv mock url key, Event.callSplit p]⟩) ∨
    (∃ p n e, S.extract_linkedin_profile (effUrl mock url) (effKey mock key) mock
            = .ok p ∧
          S.profile_truthy p = true ∧
          S.split_profile_data p = .ok n ∧
          S.nodes_truthy n = true ∧
          S.create_vector_database n = .error e ∧
          process_profile_core S fresh st url key mock
            = ⟨errMsg e, none, st,
               [extractEv mock url key, Event.callSplit p, Event.callCreateVDB n]⟩) ∨
    (∃ p n i, S.extract_linkedin_profile (effUrl mock url) (effKey mock key) mock
            = .ok p ∧
          S.profile_truthy p = true ∧
          S.split_profile_data p = .ok n ∧
          S.nodes_truthy n = true ∧
          S.create_vector_database n = .ok i ∧
          S.index_truthy i = false ∧
          process_profile_core S fresh st url key mock
            = ⟨failVdbMsg, none, st,
               [extractEv mock url key, Event.callSplit p, Event.callCreateVDB n]⟩) ∨
    (∃ p n i e, S.extract_linkedin_profile (effUrl mock url) (effKey mock key) mock
            = .ok p ∧
          S.profile_truthy p = true ∧
          S.split_profile_data p = .ok n ∧
          S.nodes_truthy n = true ∧
          S.create_vector_database n = .ok i ∧
          S.index_truthy i = true ∧
          S.verify_embeddings i = .error e ∧
          process_profile_core S fresh st url key mock
            = ⟨errMsg e, none, st,
               [extractEv mock url key, Event.callSplit p, Event.callCreateVDB n,
                Event.callVerify i]⟩) ∨
    (∃ p n i b e, S.extract_linkedin_profile (effUrl mock url) (effKey mock key) mock
            = .ok p ∧
          S.profile_truthy p = true ∧
          S.split_profile_data p = .ok n ∧
          S.nodes_truthy n = true ∧
          S.create_vector_database n = .ok i ∧
          S.index_truthy i = true ∧
          S.verify_embeddings i = .ok b ∧
          S.generate_initial_facts i = .error e ∧
          process_profile_core S fresh st url key mock
            = ⟨errMsg e, none, st,
               [extractEv mock url key, Event.callSplit p, Event.callCreateVDB n,
                Event.callVerify i, Event.callGenFacts i]⟩) ∨
    (∃ p n i b f, S.extract_linkedin_profile (effUrl mock url) (effKey mock key) mock
            = .ok p ∧
          S.profile_truthy p = true ∧
          S.split_profile_data p = .ok n ∧
          S.nodes_truthy n = true ∧
          S.create_vector_database n = .ok i ∧
          S.index_truthy i = true ∧
          S.verify_embeddings i = .ok b ∧
          S.generate_initial_facts i = .ok f ∧
          process_profile_core S fresh st url key mock
            = ⟨successMsg (S.facts_to_string f), some fresh, dictInsert st fresh i,
               [extractEv mock url key, Event.callSplit p, Event.callCreateVDB n,
                Event.callVerify i, Event.callGenFacts i]⟩) := by
  cases hE : S.extract_linkedin_profile (effUrl mock url) (effKey mock key) mock with
  | error e =>
    refine Or.inl ⟨e, ?_, ?_⟩ <;>
      first | rfl | assumption | simp [process_profile_core, hE]
  | ok p =>
    cases hP : S.profile_truthy p with
    | false =>
      refine Or.inr (Or.inl ⟨p, ?_, ?_, ?_⟩) <;>
        first | rfl | assumption | simp [process_profile_core, hE, hP]
    | true =>
      cases hS : S.split_profile_data p with
      | error e =>
        refine Or.inr (Or.inr (Or.inl ⟨p, e, ?_, ?_, ?_, ?_⟩)) <;>
          first | rfl | assumption | simp [process_profile_core, hE, hP, hS]
      | ok n =>
        cases hN : S.nodes_truthy n with
        | false =>
          refine Or.inr (Or.inr (Or.inr (Or.inl ⟨p, n, ?_, ?_, ?_, ?_, ?_⟩))) <;>
            first | rfl | assumption | simp [process_profile_core, hE, hP, hS, hN]
        | true =>
          cases hC : S.create_vector_database n with
          | error e =>
            refine Or.inr (Or.inr (Or.inr (Or.inr (Or.inl
              ⟨p, n, e, ?_, ?_, ?_, ?_, ?_, ?_⟩)))) <;>
              first | rfl | assumption | simp [process_profile_core, hE, hP, hS, hN, hC]
          | ok i =>
            cases hI : S.index_truthy i with
            | false =>
              refine Or.inr (Or.inr (Or.inr (Or.inr (Or.inr (Or.inl
                ⟨p, n, i, ?_, ?_, ?_, ?_, ?_, ?_, ?_⟩))))) <;>
                first | rfl | assumption | simp [process_profile_core, hE, hP, hS, hN, hC, hI]
            | true =>
              cases hV : S.verify_embeddings i with
              | error e =>
                refine Or.inr (Or.inr (Or.inr (Or.inr (Or.inr (Or.inr (Or.inl
                  ⟨p, n, i, e, ?_, ?_, ?_, ?_, ?_, ?_, ?_, ?_⟩)))))) <;>
                  (first
                    | rfl
                    | assumption
                    | simp [process_profile_core, hE, hP, hS, hN, hC, hI, hV])
              | ok b =>
                cases hG : S.generate_initial_facts i with
                | error e =>
                  refine Or.inr (Or.inr (Or.inr (Or.inr (Or.inr (Or.inr (Or.inr (Or.inl
                    ⟨p, n, i, b, e, ?_, ?_, ?_, ?_, ?_, ?_, ?_, ?_, ?_⟩))))))) <;>
                    (first
                      | rfl
                      | assumption
                      | simp [process_profile_core, hE, hP, hS, hN, hC, hI, hV, hG])
                | ok f =>
                  refine Or.inr (Or.inr (Or.inr (Or.inr (Or.inr (Or.inr (Or.inr (Or.inr
                    ⟨p, n, i, b, f, ?_, ?_, ?_, ?_, ?_, ?_, ?_, ?_, ?_⟩))))))) <;>
                    (first
                      | rfl
                      | assumption
                      | simp [process_profile_core, hE, hP, hS, hN, hC, hI, hV, hG])

/-- `process_profile` is the core body, possibly preceded by the
`change_llm_model` call (which may itself raise). -/
theorem process_profile_spec {P N I F R : Type} (S : Stages P N I F R)
    (fresh : String) (st : List (String × I))
    (url key : String) (mock : Bool) (model : String) :
    (model = S.llm_model_id ∧
      process_profile S fresh st url key mock model
        = process_profile_core S fresh st url key mock) ∨
    (model ≠ S.llm_model_id ∧ ∃ e, S.change_llm_model model = .error e ∧
      process_profile S fresh st url key mock model
        = ⟨errMsg e, none, st, [Event.callChangeModel model]⟩) ∨
    (model ≠ S.llm_model_id ∧ (∃ u, S.change_llm_model model = .ok u) ∧
      process_profile S fresh st url key mock model
        = withModelEv model (process_profile_core S fresh st url key mock)) := by
  by_cases h : model = S.llm_model_id
  · refine Or.inl ⟨h, ?_⟩
    simp [process_profile, h]
  · cases hC : S.change_llm_model model with
    | error e =>
      refine Or.inr (Or.inl ⟨h, e, ?_, ?_⟩) <;>
        first | rfl | assumption | simp [process_profile, h, hC]
    | ok u =>
      refine Or.inr (Or.inr ⟨h, ⟨u, ?_⟩, ?_⟩) <;>
        first | rfl | assumption | simp [process_profile, h, hC]

/-! ### Derived characterizations -/

/-- The error strings `process_profile` can return: the three guard
messages and the caught-exception form. -/
def IsErrorMessage (m : String) : Prop :=
  m = failProfileMsg ∨ m = failNodesMsg ∨ m = failVdbMsg ∨ ∃ e, m = errMsg e

/-- A successful run of the pipeline body: every stage returned a truthy
value, and the result is the success message, the fresh session id, the
dictionary extended at the fresh id with the built index, and the
five-stage trace. -/
theorem process_profile_core_success {P N I F R : Type} (S : Stages P N I F R)
    (fresh : String) (st : List (String × I)) (url key : String) (mock : Bool)
    (h : (process_profile_core S fresh st url key mock).session.isSome) :
    ∃ p n i b f,
      S.extract_linkedin_profile (effUrl mock url) (effKey mock key) mock = .ok p ∧
      S.profile_truthy p = true ∧
      S.split_profile_data p = .ok n ∧
      S.nodes_truthy n = true ∧
      S.create_vector_database n = .ok i ∧
      S.index_truthy i = true ∧
      S.verify_embeddings i = .ok b ∧
      S.generate_initial_facts i = .ok f ∧
      process_profile_core S fresh st url key mock
        = ⟨successMsg (S.facts_to_string f), some fresh, dictInsert st fresh i,
           [extractEv mock url key, Event.callSplit p, Event.callCreateVDB n,
            Event.callVerify i, Event.callGenFacts i]⟩ := by
  rcases process_profile_core_spec S fresh st url key mock with
      ⟨e, hE, heq⟩ | ⟨p, hE, hP, heq⟩ | ⟨p, e, hE, hP, hS, heq⟩ |
      ⟨p, n, hE, hP, hS, hN, heq⟩ | ⟨p, n, e, hE, hP, hS, hN, hC, heq⟩ |
      ⟨p, n, i, hE, hP, hS, hN, hC, hI, heq⟩ |
      ⟨p, n, i, e, hE, hP, hS, hN, hC, hI, hV, heq⟩ |
      ⟨p, n, i, b, e, hE, hP, hS, hN, hC, hI, hV, hG, heq⟩ |
      ⟨p, n, i, b, f, hE, hP, hS, hN, hC, hI, hV, hG, heq⟩ <;>
    rw [heq] at h <;> simp at h
  exact ⟨p, n, i, b, f, hE, hP, hS, hN, hC, hI, hV, hG, heq⟩

/-- A failed run of the pipeline body returns the untouched dictionary and
one of the documented error messages. -/
theorem process_profile_core_fail {P N I F R : Type} (S : Stages P N I F R)
    (fresh : String) (st : List (String × I)) (url key : String) (mock : Bool)
    (h : (process_profile_core S fresh st url key mock).session = none) :
    (process_profile_core S fresh st url key mock).indices = st ∧
    IsErrorMessage (process_profile_core S fresh st url key mock).message := by
  rcases process_profile_core_spec S fresh st url key mock with
      ⟨e, hE, heq⟩ | ⟨p, hE, hP, heq⟩ | ⟨p, e, hE, hP, hS, heq⟩ |
      ⟨p, n, hE, hP, hS, hN, heq⟩ | ⟨p, n, e, hE, hP, hS, hN, hC, heq⟩ |
      ⟨p, n, i, hE, hP, hS, hN, hC, hI, heq⟩ |
      ⟨p, n, i, e, hE, hP, hS, hN, hC, hI, hV, heq⟩ |
      ⟨p, n, i, b, e, hE, hP, hS, hN, hC, hI, hV, hG, heq⟩ |
      ⟨p, n, i, b, f, hE, hP, hS, hN, hC, hI, hV, hG, heq⟩ <;>
    rw [heq] at h ⊢ <;>
    simp_all [IsErrorMessage]

/-- Lift of `process_profile_core_fail` through the LLM-model step. -/
theorem process_profile_fail {P N I F R : Type} (S : Stages P N I F R)
    (fresh : String) (st : List (String × I)) (url key : String) (mock : Bool)
    (model : String)
    (h : (process_profile S fresh st url key mock model).session = none) :
    (process_profile S fresh st url key mock model).indices = st ∧
    IsErrorMessage (process_profile S fresh st url key mock model).message := by
  rcases process_profile_spec S fresh st url key mock model with
      ⟨hm, heq⟩ | ⟨hm, e, hC, heq⟩ | ⟨hm, hCok, heq⟩
  · rw [heq] at h ⊢
    exact process_profile_core_fail S fresh st url key mock h
  · rw [heq] at h ⊢
    exact ⟨rfl, Or.inr (Or.inr (Or.inr ⟨e, rfl⟩))⟩
  · rw [heq] at h ⊢
    simp only [withModelEv] at h ⊢
    exact process_profile_core_fail S fresh st url key mock h

/-- On an association list without the key, Python dict assignment appends
the new pair at the end. -/
theorem dictInsert_of_none {I : Type} (m : List (String × I)) (k : String) (v : I)
    (h : dictGet? m k = none) : dictInsert m k v = m ++ [(k, v)] := by
  unfold dictInsert
  rw [h]

/-- Looking up the freshly appended key finds the new value. -/
theorem dictGet?_append_self {I : Type} (m : List (String × I)) (k : String) (v : I)
    (h : dictGet? m k = none) : dictGet? (m ++ [(k, v)]) k = some v := by
  unfold dictGet? at h ⊢
  rw [List.find?_append, Option.map_eq_none'.mp h]
  simp [List.find?]

/-- Every invocation of `chat_with_profile` takes exactly one of five exit
paths: falsy session id, unknown session id, blank query, answered query,
or an exception while answering. -/
theorem chat_with_profile_spec {P N I F R : Type} (S : Stages P N I F R)
    (st : List (String × I)) (sid q : String)
    (hist : List (String × String)) :
    (sid = "" ∧ chat_with_profile S st sid q hist
        = ⟨hist ++ [(q, noProfileMsg)], st, []⟩) ∨
    (sid ≠ "" ∧ dictGet? st sid = none ∧ chat_with_profile S st sid q hist
        = ⟨hist ++ [(q, sessionExpiredMsg)], st, []⟩) ∨
    (∃ i, sid ≠ "" ∧ dictGet? st sid = some i ∧ pyStrip q = "" ∧
      chat_with_profile S st sid q hist = ⟨hist, st, []⟩) ∨
    (∃ i e, sid ≠ "" ∧ dictGet? st sid = some i ∧ pyStrip q ≠ "" ∧
      S.answer_user_query i q = .error e ∧
      chat_with_profile S st sid q hist
        = ⟨hist ++ [(q, errMsg e)], st, [Event.callAnswer i q]⟩) ∨
    (∃ i r, sid ≠ "" ∧ dictGet? st sid = some i ∧ pyStrip q ≠ "" ∧
      S.answer_user_query i q = .ok r ∧
      chat_with_profile S st sid q hist
        = ⟨hist ++ [(q, S.response_response r)], st, [Event.callAnswer i q]⟩) := by
  by_cases hsid : sid = ""
  · refine Or.inl ⟨hsid, ?_⟩
    simp [chat_with_profile, hsid]
  · cases hG : dictGet? st sid with
    | none =>
      refine Or.inr (Or.inl ⟨hsid, ?_, ?_⟩) <;>
        first | rfl | assumption | simp [chat_with_profile, hsid, hG]
    | some i =>
      by_cases hq : pyStrip q = ""
      · refine Or.inr (Or.inr (Or.inl ⟨i, hsid, ?_, ?_, ?_⟩)) <;>
          first | rfl | assumption | simp [chat_with_profile, hsid, hG, hq]
      · cases hA : S.answer_user_query i q with
        | error e =>
          refine Or.inr (Or.inr (Or.inr (Or.inl ⟨i, e, hsid, ?_, ?_, ?_, ?_⟩))) <;>
            first | rfl | assumption | simp [chat_with_profile, hsid, hG, hq, hA]
        | ok r =>
          refine Or.inr (Or.inr (Or.inr (Or.inr ⟨i, r, hsid, ?_, ?_, ?_, ?_⟩))) <;>
            first | rfl | assumption | simp [chat_with_profile, hsid, hG, hq, hA]

/-- A successful invocation of `process_profile`: all oracle answers on the
way, the returned values, the updated dictionary, and the full trace (with
the optional leading `change_llm_model` call). -/
theorem process_profile_success {P N I F R : Type} (S : Stages P N I F R)
    (fresh : String) (st : List (String × I)) (url key : String) (mock : Bool)
    (model : String)
    (h : (process_profile S fresh st url key mock model).session.isSome) :
    ∃ p n i b f,
      S.extract_linkedin_profile (effUrl mock url) (effKey mock key) mock = .ok p ∧
      S.profile_truthy p = true ∧
      S.split_profile_data p = .ok n ∧
      S.nodes_truthy n = true ∧
      S.create_vector_database n = .ok i ∧
      S.index_truthy i = true ∧
      S.verify_embeddings i = .ok b ∧
      S.generate_initial_facts i = .ok f ∧
      (process_profile S fresh st url key mock model).message
        = successMsg (S.facts_to_string f) ∧
      (process_profile S fresh st url key mock model).session = some fresh ∧
      (process_profile S fresh st url key mock model).indices
        = dictInsert st fresh i ∧
      (process_profile S fresh st url key mock model).trace
        = (if model = S.llm_model_id then [] else [Event.callChangeModel model])
          ++ [extractEv mock url key, Event.callSplit p, Event.callCreateVDB n,
              Event.callVerify i, Event.callGenFacts i] := by
  rcases process_profile_spec S fresh st url key mock model with
      ⟨hm, heq⟩ | ⟨hm, e, hC, heq⟩ | ⟨hm, hCok, heq⟩
  · rw [heq] at h ⊢
    obtain ⟨p, n, i, b, f, hE, hP, hS, hN, hC, hI, hV, hG, hcore⟩ :=
      process_profile_core_success S fresh st url key mock h
    refine ⟨p, n, i, b, f, hE, hP, hS, hN, hC, hI, hV, hG, ?_, ?_, ?_, ?_⟩ <;>
      simp [hcore, hm]
  · rw [heq] at h
    simp at h
  · rw [heq] at h ⊢
    simp only [withModelEv] at h
    obtain ⟨p, n, i, b, f, hE, hP, hS, hN, hC, hI, hV, hG, hcore⟩ :=
      process_profile_core_success S fresh st url key mock h
    refine ⟨p, n, i, b, f, hE, hP, hS, hN, hC, hI, hV, hG, ?_, ?_, ?_, ?_⟩ <;>
      simp [withModelEv, hcore, hm]

/-- Any `extract_linkedin_profile` call recorded in a run of the pipeline
body was made with the effective URL and key of that run. -/
theorem process_profile_core_trace_extract {P N I F R : Type}
    (S : Stages P N I F R) (fresh : String) (st : List (String × I))
    (url key : String) (mock : Bool) :
    ∀ u k m, Event.callExtract u k m
        ∈ (process_profile_core S fresh st url key mock).trace →
      u = effUrl mock url ∧ k = effKey mock key ∧ m = mock := by
  intro u k m hmem
  rcases process_profile_core_spec S fresh st url key mock with
      ⟨e, hE, heq⟩ | ⟨p, hE, hP, heq⟩ | ⟨p, e, hE, hP, hS, heq⟩ |
      ⟨p, n, hE, hP, hS, hN, heq⟩ | ⟨p, n, e, hE, hP, hS, hN, hC, heq⟩ |
      ⟨p, n, i, hE, hP, hS, hN, hC, hI, heq⟩ |
      ⟨p, n, i, e, hE, hP, hS, hN, hC, hI, hV, heq⟩ |
      ⟨p, n, i, b, e, hE, hP, hS, hN, hC, hI, hV, hG, heq⟩ |
      ⟨p, n, i, b, f, hE, hP, hS, hN, hC, hI, hV, hG, heq⟩ <;>
    rw [heq] at hmem <;> simp [extractEv] at hmem <;> exact hmem

/-- Any `extract_linkedin_profile` call recorded by `process_profile` was
made with the effective URL and key of that invocation. -/
theorem process_profile_trace_extract {P N I F R : Type}
    (S : Stages P N I F R) (fresh : String) (st : List (String × I))
    (url key : String) (mock : Bool) (model : String) :
    ∀ u k m, Event.callExtract u k m
        ∈ (process_profile S fresh st url key mock model).trace →
      u = effUrl mock url ∧ k = effKey mock key ∧ m = mock := by
  intro u k m hmem
  rcases process_profile_spec S fresh st url key mock model with
      ⟨hm, heq⟩ | ⟨hm, e, hC, heq⟩ | ⟨hm, hCok, heq⟩
  · rw [heq] at hmem
    exact process_profile_core_trace_extract S fresh st url key mock u k m hmem
  · rw [heq] at hmem
    simp at hmem
  · rw [heq] at hmem
    simp only [withModelEv, List.mem_cons] at hmem
    rcases hmem with hmem | hmem
    · exact absurd hmem (by simp)
    · exact process_profile_core_trace_extract S fresh st url key mock u k m hmem

/-- The stages record with `verify_embeddings` replaced by a
non-raising verification returning the boolean `v i`. -/
def withVerify {P N I F R : Type} (S : Stages P N I F R) (v : I → Bool) :
    Stages P N I F R :=
  { S with verify_embeddings := fun i => Except.ok (v i) }

/-! ### Concrete instantiations used to exercise the theorems -/

/-- A fully successful run of every external stage, on `Nat` payloads. -/
def demoOk : Stages Nat Nat Nat Nat Nat where
  llm_model_id := "m"
  change_llm_model := fun _ => .ok ()
  extract_linkedin_profile := fun _ _ _ => .ok 1
  profile_truthy := fun _ => true
  split_profile_data := fun p => .ok (p + 1)
  nodes_truthy := fun _ => true
  create_vector_database := fun n => .ok (n + 1)
  index_truthy := fun _ => true
  verify_embeddings := fun _ => .ok true
  generate_initial_facts := fun i => .ok i
  facts_to_string := fun f => toString f
  answer_user_query := fun i q => .ok (i + q.length)
  response_response := fun r => toString r

/-- Like `demoOk`, except answering a query raises an exception. -/
def demoAnsErr : Stages Nat Nat Nat Nat Nat :=
  { demoOk with answer_user_query := fun _ _ => .error "boom" }

/-- Like `demoOk`, except profile extraction raises an exception. -/
def demoExtractErr : Stages Nat Nat Nat Nat Nat :=
  { demoOk with extract_linkedin_profile := fun _ _ _ => .error "scrape failed" }

/-- The reply string appended for an answered query: the response text on
success, the caught-exception string otherwise. -/
def chatReply {R : Type} (resp : R → String) : Except String R → String
  | .error e => errMsg e
  | .ok r => resp r

/-- Kinds of the events of the pipeline body never include the
`change_llm_model` kind and are pairwise distinct. -/
theorem core_trace_kinds_nodup {P N I F R : Type} (S : Stages P N I F R)
    (fresh : String) (st : List (String × I)) (url key : String) (mock : Bool) :
    ((process_profile_core S fresh st url key mock).trace.map Event.kind).Nodup ∧
    0 ∉ (process_profile_core S fresh st url key mock).trace.map Event.kind := by
  rcases process_profile_core_spec S fresh st url key mock with
      ⟨e, hE, heq⟩ | ⟨p, hE, hP, heq⟩ | ⟨p, e, hE, hP, hS, heq⟩ |
      ⟨p, n, hE, hP, hS, hN, heq⟩ | ⟨p, n, e, hE, hP, hS, hN, hC, heq⟩ |
      ⟨p, n, i, hE, hP, hS, hN, hC, hI, heq⟩ |
      ⟨p, n, i, e, hE, hP, hS, hN, hC, hI, hV, heq⟩ |
      ⟨p, n, i, b, e, hE, hP, hS, hN, hC, hI, hV, hG, heq⟩ |
      ⟨p, n, i, b, f, hE, hP, hS, hN, hC, hI, hV, hG, heq⟩ <;>
    rw [heq] <;>
    refine ⟨?_, ?_⟩ <;>
    simp [Event.kind, extractEv]

/-! ### The claims -/

/-- C1: On every successful invocation of `process_profile`, the external
calls run in order — profile extraction, then splitting of the extracted
profile, then vector-database creation from the split nodes followed by
embedding verification of the created index, then fact generation over
that same index — each stage fed the previous stage's output (preceded
only by the optional LLM-model change). -/
theorem pipeline_stage_order {P N I F R : Type} (S : Stages P N I F R)
    (fresh : String) (st : List (String × I)) (url key : String) (mock : Bool)
    (model : String)
    (h : (process_profile S fresh st url key mock model).session.isSome) :
    ∃ p n i,
      S.extract_linkedin_profile (effUrl mock url) (effKey mock key) mock = .ok p ∧
      S.split_profile_data p = .ok n ∧
      S.create_vector_database n = .ok i ∧
      (∃ b, S.verify_embeddings i = .ok b) ∧
      (∃ f, S.generate_initial_facts i = .ok f) ∧
      (process_profile S fresh st url key mock model).trace
        = (if model = S.llm_model_id then [] else [Event.callChangeModel model])
          ++ [extractEv mock url key, Event.callSplit p, Event.callCreateVDB n,
              Event.callVerify i, Event.callGenFacts i] := by
  obtain ⟨p, n, i, b, f, hE, hP, hS, hN, hC, hI, hV, hG, hmsg, hses, hind, htr⟩ :=
    process_profile_success S fresh st url key mock model h
  exact ⟨p, n, i, hE, hS, hC, ⟨b, hV⟩, ⟨f, hG⟩, htr⟩

theorem pipeline_stage_order_witness :
    ∃ p n i,
      demoOk.extract_linkedin_profile (effUrl true "") (effKey true "k") true
        = .ok p ∧
      demoOk.split_profile_data p = .ok n ∧
      demoOk.create_vector_database n = .ok i ∧
      (∃ b, demoOk.verify_embeddings i = .ok b) ∧
      (∃ f, demoOk.generate_initial_facts i = .ok f) ∧
      (process_profile demoOk "sid" [] "" "k" true "m").trace
        = (if "m" = demoOk.llm_model_id then [] else [Event.callChangeModel "m"])
          ++ [extractEv true "" "k", Event.callSplit p, Event.callCreateVDB n,
              Event.callVerify i, Event.callGenFacts i] :=
  pipeline_stage_order demoOk "sid" [] "" "k" true "m" (by decide)

/-- C2: Every invocation of `process_profile` either succeeds (success
message, session id returned) or returns `None` as the session id together
with an error string — a stage-failure message or the caught-exception
string; and every exception raised while answering in `chat_with_profile`
is caught and appended to the chat history as a string beginning with
"Error: ".  Both embedded functions are total: no exception propagates. -/
theorem error_paths_return_error_string {P N I F R : Type} (S : Stages P N I F R) :
    (∀ fresh (st : List (String × I)) url key mock model,
      (∃ f, (process_profile S fresh st url key mock model).message
              = successMsg (S.facts_to_string f) ∧
            (process_profile S fresh st url key mock model).session = some fresh) ∨
      ((process_profile S fresh st url key mock model).session = none ∧
        IsErrorMessage (process_profile S fresh st url key mock model).message)) ∧
    (∀ (st : List (String × I)) sid q hist i e,
      sid ≠ "" → dictGet? st sid = some i → pyStrip q ≠ "" →
      S.answer_user_query i q = .error e →
      (chat_with_profile S st sid q hist).history = hist ++ [(q, errMsg e)]) := by
  constructor
  · intro fresh st url key mock model
    cases hs : (process_profile S fresh st url key mock model).session with
    | none =>
      exact Or.inr ⟨rfl, (process_profile_fail S fresh st url key mock model hs).2⟩
    | some sid =>
      have h : (process_profile S fresh st url key mock model).session.isSome := by
        rw [hs]; rfl
      obtain ⟨p, n, i, b, f, hE, hP, hS, hN, hC, hI, hV, hG, hmsg, hses, hind, htr⟩ :=
        process_profile_success S fresh st url key mock model h
      exact Or.inl ⟨f, hmsg, hs ▸ hses⟩
  · intro st sid q hist i e hsid hG hq hA
    rcases chat_with_profile_spec S st sid q hist with
        ⟨h1, heq⟩ | ⟨h1, h2, heq⟩ | ⟨i', h1, h2, h3, heq⟩ |
        ⟨i', e', h1, h2, h3, h4, heq⟩ | ⟨i', r, h1, h2, h3, h4, heq⟩
    · exact absurd h1 hsid
    · rw [hG] at h2; exact absurd h2 (by simp)
    · exact absurd h3 hq
    · rw [hG] at h2
      obtain rfl : i = i' := by injection h2
      rw [hA] at h4
      obtain rfl : e' = e := by injection h4 with h5; exact h5.symm
      rw [heq]
    · rw [hG] at h2
      obtain rfl : i = i' := by injection h2
      rw [hA] at h4
      exact absurd h4 (by simp)

theorem error_paths_return_error_string_witness :
    (chat_with_profile demoAnsErr [("s", 3)] "s" "hi" []).history
      = [] ++ [("hi", errMsg "boom")] :=
  (error_paths_return_error_string demoAnsErr).2 [("s", 3)] "s" "hi" [] 3 "boom"
    (by decide) (by decide) (by decide) rfl

/-- C3: `chat_with_profile` routes queries through the session map: a falsy
session id appends the "No profile loaded" message and a non-empty but
unknown session id appends the "Session expired" message, in both cases
with an empty call trace (so `answer_user_query` is not invoked); when the
session id is a key, the reply is produced by `answer_user_query` over
exactly the index stored under that key. -/
theorem chat_session_routing {P N I F R : Type} (S : Stages P N I F R)
    (st : List (String × I)) (sid q : String) (hist : List (String × String)) :
    (sid = "" → chat_with_profile S st sid q hist
        = ⟨hist ++ [(q, noProfileMsg)], st, []⟩) ∧
    (sid ≠ "" → dictGet? st sid = none → chat_with_profile S st sid q hist
        = ⟨hist ++ [(q, sessionExpiredMsg)], st, []⟩) ∧
    (∀ i, sid ≠ "" → dictGet? st sid = some i → pyStrip q ≠ "" →
      (chat_with_profile S st sid q hist).trace = [Event.callAnswer i q] ∧
      (chat_with_profile S st sid q hist).history
        = hist ++ [(q, chatReply S.response_response (S.answer_user_query i q))]) := by
  refine ⟨?_, ?_, ?_⟩
  · intro h
    simp [chat_with_profile, h]
  · intro h1 h2
    simp [chat_with_profile, h1, h2]
  · intro i h1 h2 h3
    constructor <;>
      cases hA : S.answer_user_query i q <;>
      simp [chat_with_profile, h1, h2, h3, hA, chatReply]

theorem chat_session_routing_witness :
    (chat_with_profile demoOk [("s", 7)] "s" "hi" []).trace
      = [Event.callAnswer 7 "hi"] ∧
    (chat_with_profile demoOk [("s", 7)] "s" "hi" []).history
      = [] ++ [("hi", chatReply demoOk.response_response
          (demoOk.answer_user_query 7 "hi"))] :=
  (chat_session_routing demoOk [("s", 7)] "s" "hi" []).2.2 7
    (by decide) (by decide) (by decide)

/-- C4: With `use_mock` true, every recorded `extract_linkedin_profile`
call carries `None` as the API key (the supplied key is never forwarded)
and `mock = true`, and its URL is the fixed default when no URL was
provided. -/
theorem mock_mode_extract_args {P N I F R : Type} (S : Stages P N I F R)
    (fresh : String) (st : List (String × I)) (url key model : String) :
    ∀ u k m, Event.callExtract u k m
        ∈ (process_profile S fresh st url key true model).trace →
      k = none ∧ m = true ∧
      u = (if url = "" then defaultLinkedinUrl else url) := by
  intro u k m hmem
  obtain ⟨hu, hk, hm⟩ :=
    process_profile_trace_extract S fresh st url key true model u k m hmem
  refine ⟨?_, hm, ?_⟩
  · rw [hk]; simp [effKey]
  · rw [hu]; simp [effUrl]

theorem mock_mode_extract_args_witness :
    (none : Option String) = none ∧ true = true ∧
    defaultLinkedinUrl = (if ("" : String) = "" then defaultLinkedinUrl else "") :=
  mock_mode_extract_args demoOk "sid" [] "" "k" "m" defaultLinkedinUrl none true
    (by decide)

/-- C5: A successful invocation of `process_profile` with a fresh generated
id stores exactly one new entry — appended to the session dictionary,
keyed by that id, mapping to the index built in this invocation — and
returns that id, which is then a key of the dictionary. -/
theorem success_stores_fresh_session {P N I F R : Type} (S : Stages P N I F R)
    (fresh : String) (st : List (String × I)) (url key : String) (mock : Bool)
    (model sid : String)
    (hfresh : dictGet? st fresh = none)
    (h : (process_profile S fresh st url key mock model).session = some sid) :
    sid = fresh ∧
    ∃ i, (∃ n, S.create_vector_database n = .ok i) ∧
      (process_profile S fresh st url key mock model).indices
          = st ++ [(fresh, i)] ∧
      dictGet? (process_profile S fresh st url key mock model).indices sid
          = some i ∧
      (process_profile S fresh st url key mock model).indices.length
          = st.length + 1 := by
  have hs : (process_profile S fresh st url key mock model).session.isSome := by
    rw [h]; rfl
  obtain ⟨p, n, i, b, f, hE, hP, hS, hN, hC, hI, hV, hG, hmsg, hses, hind, htr⟩ :=
    process_profile_success S fresh st url key mock model hs
  rw [hses] at h
  have hsid : fresh = sid := by injection h
  subst hsid
  refine ⟨rfl, i, ⟨n, hC⟩, ?_, ?_, ?_⟩
  · rw [hind, dictInsert_of_none st fresh i hfresh]
  · rw [hind, dictInsert_of_none st fresh i hfresh]
    exact dictGet?_append_self st fresh i hfresh
  · rw [hind, dictInsert_of_none st fresh i hfresh]
    simp

theorem success_stores_fresh_session_witness :
    "sid" = "sid" ∧
    ∃ i, (∃ n, demoOk.create_vector_database n = .ok i) ∧
      (process_profile demoOk "sid" [] "" "k" true "m").indices
          = [] ++ [("sid", i)] ∧
      dictGet? (process_profile demoOk "sid" [] "" "k" true "m").indices "sid"
          = some i ∧
      (process_profile demoOk "sid" [] "" "k" true "m").indices.length
          = ([] : List (String × Nat)).length + 1 :=
  success_stores_fresh_session demoOk "sid" [] "" "k" true "m" "sid"
    (by decide) (by decide)

/-- C6: Neither function retries a failed external call: in every
invocation of `process_profile` or `chat_with_profile`, no two recorded
external calls are to the same function (each stage runs at most once). -/
theorem no_retries_each_stage_once {P N I F R : Type} (S : Stages P N I F R) :
    (∀ fresh (st : List (String × I)) url key mock model,
      ((process_profile S fresh st url key mock model).trace.map Event.kind).Nodup) ∧
    (∀ (st : List (String × I)) sid q hist,
      ((chat_with_profile S st sid q hist).trace.map Event.kind).Nodup) := by
  constructor
  · intro fresh st url key mock model
    rcases process_profile_spec S fresh st url key mock model with
        ⟨hm, heq⟩ | ⟨hm, e, hC, heq⟩ | ⟨hm, hCok, heq⟩ <;> rw [heq]
    · exact (core_trace_kinds_nodup S fresh st url key mock).1
    · simp
    · obtain ⟨hnd, h0⟩ := core_trace_kinds_nodup S fresh st url key mock
      simp [withModelEv, Event.kind, hnd]
      intro x hx hk
      exact h0 (hk ▸ List.mem_map_of_mem Event.kind hx)
  · intro st sid q hist
    rcases chat_with_profile_spec S st sid q hist with
        ⟨h1, heq⟩ | ⟨h1, h2, heq⟩ | ⟨i, h1, h2, h3, heq⟩ |
        ⟨i, e, h1, h2, h3, h4, heq⟩ | ⟨i, r, h1, h2, h3, h4, heq⟩ <;>
      rw [heq] <;> simp

/-- C7: `chat_with_profile` returns the given history unchanged (which
happens only for a blank query) or with exactly one pair appended, and it
never adds, removes or overwrites a session dictionary entry. -/
theorem chat_frame_effect {P N I F R : Type} (S : Stages P N I F R)
    (st : List (String × I)) (sid q : String) (hist : List (String × String)) :
    (chat_with_profile S st sid q hist).indices = st ∧
    (((chat_with_profile S st sid q hist).history = hist ∧ pyStrip q = "") ∨
      ∃ reply, (chat_with_profile S st sid q hist).history
        = hist ++ [(q, reply)]) := by
  rcases chat_with_profile_spec S st sid q hist with
      ⟨h1, heq⟩ | ⟨h1, h2, heq⟩ | ⟨i, h1, h2, h3, heq⟩ |
      ⟨i, e, h1, h2, h3, h4, heq⟩ | ⟨i, r, h1, h2, h3, h4, heq⟩ <;> rw [heq]
  · exact ⟨rfl, Or.inr ⟨noProfileMsg, rfl⟩⟩
  · exact ⟨rfl, Or.inr ⟨sessionExpiredMsg, rfl⟩⟩
  · exact ⟨rfl, Or.inl ⟨rfl, h3⟩⟩
  · exact ⟨rfl, Or.inr ⟨errMsg e, rfl⟩⟩
  · exact ⟨rfl, Or.inr ⟨S.response_response r, rfl⟩⟩

/-- C8: `process_profile` is atomic with respect to the session store:
whenever it returns `None` as the session id, the session dictionary is
exactly what it was before the call. -/
theorem failed_process_leaves_indices {P N I F R : Type} (S : Stages P N I F R)
    (fresh : String) (st : List (String × I)) (url key : String) (mock : Bool)
    (model : String)
    (h : (process_profile S fresh st url key mock model).session = none) :
    (process_profile S fresh st url key mock model).indices = st :=
  (process_profile_fail S fresh st url key mock model h).1

theorem failed_process_leaves_indices_witness :
    (process_profile demoExtractErr "sid" [("a", 1)] "u" "k" false "m").indices
      = [("a", 1)] :=
  failed_process_leaves_indices demoExtractErr "sid" [("a", 1)] "u" "k" false "m"
    (by decide)

/-- C9: The boolean outcome of `verify_embeddings` has no effect on any of
`process_profile`'s outputs: runs whose verification returns any booleans
produce identical messages, session ids, dictionaries and traces (a failed
verification only logs a warning; processing still completes). -/
theorem verify_result_independent {P N I F R : Type} (S : Stages P N I F R)
    (vf vg : I → Bool) (fresh : String) (st : List (String × I))
    (url key : String) (mock : Bool) (model : String) :
    process_profile (withVerify S vf) fresh st url key mock model
      = process_profile (withVerify S vg) fresh st url key mock model := by
  simp only [process_profile, process_profile_core, withVerify]

end Icebreaker
